import Mathlib

/-!
Verification development for the playhouse-lights server core
(`src/lightserver.py`): the declarative JSON schema validator, the
parse/validate/dispatch request pipeline, and the single-flight
background bridge-discovery coordinator.

The embedding follows the Python source. Python runtime values that a
request body can decode to are modelled by `JVal`; a schema value (the
argument of the `json_validator` decorator) by `JF`; the validator
`is_valid` is translated clause by clause from lines 40-52 of the
source. The discovery coordinator (lines 205-262) is modelled as a
small-step interleaving semantics over the module globals
(`event`, `new_bridges`, `last_search`) and a pool of background
threads, each thread being its list of remaining atomic statements.
-/

/-- Python runtime type tags relevant to JSON-decoded values: the result
of `type(x)` for the values `tornado.escape.json_decode` can produce. -/
inductive PyType : Type where
  | pyInt
  | pyFloat
  | pyStr
  | pyBool
  | pyNone
  | pyList
  | pyDict
deriving DecidableEq, Repr

mutual
/-- A JSON-decoded Python value. Float payloads are irrelevant to the
validator (which only inspects `type(x)`), so the `float` constructor
carries none. -/
inductive JVal : Type where
  | null : JVal
  | bool : Bool → JVal
  | int : Int → JVal
  | float : JVal
  | str : String → JVal
  | arr : JArr → JVal
  | obj : JObj → JVal

/-- A Python list of JSON values (spine made explicit for structural
recursion). -/
inductive JArr : Type where
  | nil : JArr
  | cons : JVal → JArr → JArr

/-- A Python dict of string keys to JSON values (spine made explicit
for structural recursion). -/
inductive JObj : Type where
  | nil : JObj
  | cons : String → JVal → JObj → JObj
end

/-- Python `type(data)` on a decoded JSON value. Note `type(True) is
int` is false in Python: bool is its own exact type. -/
def typeOf : JVal → PyType
  | .null => .pyNone
  | .bool _ => .pyBool
  | .int _ => .pyInt
  | .float => .pyFloat
  | .str _ => .pyStr
  | .arr _ => .pyList
  | .obj _ => .pyDict

/-- Length of a `JArr`. -/
def JArr.length : JArr → Nat
  | .nil => 0
  | .cons _ tl => tl.length + 1

/-- Keys of a `JObj`, in insertion order (Python `data.keys()`). -/
def JObj.keys : JObj → List String
  | .nil => []
  | .cons k _ tl => k :: tl.keys

/-- Entries of a `JObj` as a list of pairs (Python `data.items()`). -/
def JObj.entries : JObj → List (String × JVal)
  | .nil => []
  | .cons k v tl => (k, v) :: tl.entries

/-- A schema value as passed to the `json_validator` decorator
(source line 38). The Python source uses plain Python values as
schemas; each constructor stands for one runtime type of schema node
distinguished by the `type(jf) is ...` tests on lines 42-52:
a one-element Python list (every schema list in the source has exactly
one element, which is what `jf[0]` on line 48 reads), a tuple, a dict
whose keys may carry a `?` prefix marking the key optional, a set of
types, and a bare type. -/
inductive JF : Type where
  | list (elem : JF)
  | tuple (elems : List JF)
  | dict (kvs : List (String × JF))
  | union (ts : List PyType)
  | exact (t : PyType)

/-- Python `x[0] == '?'` on a schema key (line 44-46). Source keys are
never empty, where Python would raise; an empty key is treated as not
optional here. -/
def isOptKey (k : String) : Bool :=
  match k.data with
  | [] => false
  | c :: _ => c == '?'

/-- Python `x[1:] if x[0] == '?' else x` (lines 44 and 46). -/
def stripKey (k : String) : String :=
  if isOptKey k then String.mk k.data.tail else k

/-- Line 44: `all_keys = set(x[1:] if x[0] == '?' else x for x in jf)`. -/
def allKeys (kvs : List (String × JF)) : List String :=
  kvs.map fun kv => stripKey kv.1

/-- Line 45: `required_keys = set(x for x in jf if x[0] != '?')`. -/
def requiredKeys (kvs : List (String × JF)) : List String :=
  (kvs.filter fun kv => !(isOptKey kv.1)).map fun kv => kv.1

/-- Line 46: `jf = {k[1:] if k[0] == '?' else k: v for k, v in jf.items()}`. -/
def strippedSchema (kvs : List (String × JF)) : List (String × JF) :=
  kvs.map fun kv => (stripKey kv.1, kv.2)

/-- Lookup of `jf[k]` in the stripped schema dict. A Python dict
comprehension keeps the last value written for a key, so the lookup
scans the reversed list. -/
def lookupLast (kvs : List (String × JF)) (k : String) : Option JF :=
  kvs.reverse.lookup k

/-- Set inclusion of Python key views, `xs <= ys` (line 50). -/
def keysSubset (xs ys : List String) : Bool :=
  xs.all fun x => ys.contains x

mutual
/-- The validator `is_valid(data, jf)` of `json_validator`
(source lines 40-52), translated clause by clause from the
`or`-chain on lines 48-52. -/
def is_valid : JVal → JF → Bool
  | data, .list elem =>
    match data with
    | .arr l => seq_all l elem
    | _ => false
  | data, .tuple elems =>
    match data with
    | .arr l => (l.length == elems.length) && tup_all l elems
    | _ => false
  | data, .dict kvs =>
    match data with
    | .obj d =>
      keysSubset d.keys (allKeys kvs) &&
      keysSubset (requiredKeys kvs) d.keys &&
      obj_all d (strippedSchema kvs)
    | _ => false
  | data, .union ts => ts.contains (typeOf data)
  | data, .exact t => typeOf data == t

/-- Line 48: `all(is_valid(d, jf[0]) for d in data)`. -/
def seq_all : JArr → JF → Bool
  | .nil, _ => true
  | .cons d ds, elem => is_valid d elem && seq_all ds elem

/-- Line 49: `all(is_valid(a, b) for a, b in zip(data, jf))`; `zip`
truncates at the shorter list (the length equality is checked before
this runs). -/
def tup_all : JArr → List JF → Bool
  | .nil, _ => true
  | .cons _ _, [] => true
  | .cons d ds, f :: fs => is_valid d f && tup_all ds fs

/-- Line 50: `all(is_valid(data[k], jf[k]) for k in data)` against the
stripped schema dict. -/
def obj_all : JObj → List (String × JF) → Bool
  | .nil, _ => true
  | .cons k v rest, schema =>
    (match lookupLast schema k with
     | some s => is_valid v s
     | none => false) && obj_all rest schema
end

/-- Exceptions that Python code invoked under the `try` of `json_parser`
(source lines 29-35) can raise. `UnicodeDecodeError` and `ValueError`
are the two caught classes; anything else propagates. -/
inductive PyExn : Type where
  | valueError
  | unicodeDecodeError
  | attributeError
  | otherExn
deriving DecidableEq, Repr

/-- Error-taxonomy constants from the `errorcodes` module that the
pipeline stages return (lines 33, 35, 60). -/
inductive ErrCode : Type where
  | NOT_UNICODE
  | INVALID_JSON
  | INVALID_FORMAT
deriving DecidableEq, Repr

/-- Outcome of `tornado.escape.json_decode(self.request.body)` on
line 30: the body bytes are not UTF-8 (raises `UnicodeDecodeError`),
not JSON (raises `ValueError`), or decode to a value. -/
inductive ParseOutcome : Type where
  | notUnicode
  | invalidJson
  | decoded (v : JVal)

/-- What a pipeline stage returns to `return_json`: an error-taxonomy
constant or the wrapped handler's own result. -/
inductive POut (R : Type) : Type where
  | err (e : ErrCode)
  | out (r : R)
deriving DecidableEq, Repr

/-- The `json_parser` decorator's wrapper `new_post` (source lines
28-36). The whole `try` block encloses `return func(self, data, ...)`,
so the two `except` clauses catch exceptions raised by the decorated
function (validator and handler) as well as by the JSON decode:
`UnicodeDecodeError` maps to `NOT_UNICODE`, any other `ValueError` to
`INVALID_JSON`; other exceptions propagate. -/
def json_parse {R : Type} (func : JVal → Except PyExn (POut R)) :
    ParseOutcome → Except PyExn (POut R)
  | .notUnicode => .ok (.err .NOT_UNICODE)
  | .invalidJson => .ok (.err .INVALID_JSON)
  | .decoded v =>
    match func v with
    | .error .unicodeDecodeError => .ok (.err .NOT_UNICODE)
    | .error .valueError => .ok (.err .INVALID_JSON)
    | r => r

/-- The `json_validator(jformat)` decorator's wrapper `new_func`
(source lines 54-62): run `is_valid` against the endpoint's schema,
invoke the handler on success, return `INVALID_FORMAT` on failure. -/
def json_validator {R : Type} (jformat : JF)
    (func : JVal → Except PyExn (POut R)) (data : JVal) :
    Except PyExn (POut R) :=
  if is_valid data jformat then func data else .ok (.err .INVALID_FORMAT)

/-- A mutating endpoint's decorator stack below `return_json`:
`@json_parser` applied outside `@json_validator(jformat)` applied
outside the domain handler, as on every mutating handler of the
source (e.g. lines 68-71). -/
def pipeline {R : Type} (jformat : JF)
    (handler : JVal → Except PyExn (POut R)) (body : ParseOutcome) :
    Except PyExn (POut R) :=
  json_parse (json_validator jformat handler) body

/-- The handler `GridSaveHandler.post` (source lines 292-301). The
argument models the outcome of `open(CONFIG, 'r+')` plus
`tornado.escape.json_decode(f.read())` on lines 295-296 (external
file I/O). When that succeeds, line 299 evaluates
`tornado.escope.json_encode(conf)`: the `tornado` module has no
attribute `escope` (a typo for `escape`), so the attribute lookup
raises `AttributeError` and the handler never reaches
`return {"state": "success"}`. -/
def GridSaveHandler_post (conf : Except PyExn JVal) : Except PyExn (POut JVal) :=
  match conf with
  | .error e => .error e
  | .ok _ => .error .attributeError

/-- Failures of the Lighting Backend's bridge registration. -/
inductive BackendExn : Type where
  | bridgeAlreadyAdded
  | bridgeNotFound
deriving DecidableEq, Repr

/-- Modelled from the spec: `grid.add_bridge` of the external
`playhouse` module (not part of this repository's src), per spec
section 6: `addBridge(...) -> Bridge (fails with AlreadyAdded or
NotFound)`. A bridge is identified by its serial number (a string);
the backend is the list of registered serial numbers; adding an
already-registered bridge fails with `AlreadyAdded`, otherwise the
bridge is appended. -/
def add_bridge (g : List String) (b : String) : Except BackendExn (List String) :=
  if g.contains b then .error .bridgeAlreadyAdded else .ok (g ++ [b])

/-- The auto-add loop of `myfunc` (source lines 231-236):
`for b in new_bridges: try: grid.add_bridge(b) except
playhouse.BridgeAlreadyAddedException: log` — the already-added
failure is caught and the loop continues; any other backend failure
propagates out of the loop. -/
def autoAddLoop (g : List String) : List String → Except BackendExn (List String)
  | [] => .ok g
  | b :: bs =>
    match add_bridge g b with
    | .ok g2 => autoAddLoop g2 bs
    | .error .bridgeAlreadyAdded => autoAddLoop g bs
    | .error e => .error e

/-- One atomic statement of the background thread body `myfunc`
(source lines 219-238). `discover bs` is `new_bridges =
playhouse.discover()` with the external discovery operation returning
`bs`; `stamp t` is `last_search = int(time.time())` at wall-clock
time `t`; `addOne b` is one iteration of the auto-add loop (the
`try`/`except BridgeAlreadyAddedException` folded in); `raiseExn`
stands for the statement at its position raising an uncaught
exception, which terminates the thread. -/
inductive TStep : Type where
  | setEvent
  | discover (bs : List String)
  | stamp (t : Int)
  | addOne (b : String)
  | clearEvent
  | raiseExn
deriving DecidableEq, Repr

/-- The module globals of the coordinator (source lines 205-209) plus
the Lighting Backend's registered bridges (`grid`): `event` the
threading.Event, `new_bridges` initially `[]`, `last_search`
initially `-1`. -/
structure SState : Type where
  event : Bool
  new_bridges : List String
  last_search : Int
  grid : List String
deriving DecidableEq, Repr

/-- A system configuration: the shared state plus the pool of live
background threads, each the list of its remaining atomic
statements. -/
structure Config : Type where
  st : SState
  threads : List (List TStep)
deriving DecidableEq, Repr

/-- A response body of `BridgesSearchHandler`: the
`CURRENTLY_SEARCHING` error code, the POST acceptance
`{"state": "success"}`, or the GET success body
`{"state": "success", "finished": last_search, "bridges": ...}`
(bridges abstracted to their serial numbers). -/
inductive Resp : Type where
  | currentlySearching
  | accepted
  | snapshot (finished : Int) (bridges : List String)
deriving DecidableEq, Repr

/-- One schedulable step of the system: a POST /bridges/search whose
background run, if spawned, would execute `prog`; a GET
/bridges/search; or one atomic statement of background thread `i`.
HTTP requests are handled one at a time on the single event-loop
thread, so each handler body is one atomic action; background thread
statements interleave freely with them. -/
inductive Act : Type where
  | post (prog : List TStep)
  | get
  | thread (i : Nat)

/-- Effect of one background-thread statement on the shared state
(source lines 222-238). -/
def doTStep (st : SState) : TStep → SState
  | .setEvent => { st with event := true }
  | .discover bs => { st with new_bridges := bs }
  | .stamp t => { st with last_search := t }
  | .addOne b =>
    { st with grid := if st.grid.contains b then st.grid else st.grid ++ [b] }
  | .clearEvent => { st with event := false }
  | .raiseExn => st

/-- Execute one scheduled action. POST (lines 215-243): if
`event.is_set()` return `CURRENTLY_SEARCHING`, else start a thread
running `prog` and return success — note the source sets the event
inside the thread body, not before `thread.start()`. GET (lines
246-262): if `event.is_set()` return `CURRENTLY_SEARCHING`, else
return `last_search` and `new_bridges`. A thread step runs the first
remaining statement of thread `i`; a thread whose next statement
raises, or which runs out of statements, is removed from the pool. -/
def doAction (c : Config) : Act → Config × Option Resp
  | .post prog =>
    if c.st.event then (c, some .currentlySearching)
    else ({ c with threads := c.threads ++ [prog] }, some .accepted)
  | .get =>
    if c.st.event then (c, some .currentlySearching)
    else (c, some (.snapshot c.st.last_search c.st.new_bridges))
  | .thread i =>
    match c.threads[i]? with
    | none => (c, none)
    | some [] => ({ c with threads := c.threads.eraseIdx i }, none)
    | some (TStep.raiseExn :: _) => ({ c with threads := c.threads.eraseIdx i }, none)
    | some (s :: rest) =>
      ({ st := doTStep c.st s,
         threads := if rest.isEmpty then c.threads.eraseIdx i else c.threads.set i rest },
       none)

/-- Run a whole schedule, collecting the HTTP responses in order. -/
def runTrace (c : Config) : List Act → Config × List Resp
  | [] => (c, [])
  | a :: rest =>
    let step := doAction c a
    let next := runTrace step.1 rest
    (next.1, step.2.toList ++ next.2)

/-- The statements of `myfunc` (source lines 219-238) for a request
with `auto_add`, when the discovery operation returns `bs` at time
`t` and nothing raises: set the event, store the discovery result,
store the timestamp, optionally auto-add each discovered bridge,
clear the event. -/
def myfuncProg (auto_add : Bool) (bs : List String) (t : Int) : List TStep :=
  [TStep.setEvent, TStep.discover bs, TStep.stamp t] ++
    (if auto_add then bs.map TStep.addOne else []) ++ [TStep.clearEvent]

/-- The process-start configuration (source lines 205-209): event not
set, `new_bridges = []`, `last_search = -1`, no background threads;
the backend starts with no registered bridges. -/
def initConfig : Config := ⟨⟨false, [], -1, []⟩, []⟩

/-- Key-view inclusion unfolded to membership. -/
theorem keysSubset_iff (xs ys : List String) :
    keysSubset xs ys = true ↔ ∀ x ∈ xs, x ∈ ys := by
  simp [keysSubset]

/-- The per-key recursion of the dict clause, unfolded to membership
over the entries of the value. -/
theorem obj_all_iff : ∀ (d : JObj) (schema : List (String × JF)),
    obj_all d schema = true ↔
      ∀ p ∈ d.entries, ∃ s, lookupLast schema p.1 = some s ∧ is_valid p.2 s = true
  | .nil, schema => by simp [obj_all, JObj.entries]
  | .cons k v rest, schema => by
    have ih := obj_all_iff rest schema
    simp only [obj_all, JObj.entries, Bool.and_eq_true, ih, List.mem_cons]
    cases h : lookupLast schema k with
    | none =>
      simp only [Bool.false_eq_true, false_and]
      constructor
      · rintro ⟨⟨⟩, _⟩
      · intro hall
        rcases hall (k, v) (Or.inl rfl) with ⟨s, hs, _⟩
        rw [h] at hs
        cases hs
    | some s =>
      constructor
      · rintro ⟨hv, hrest⟩
        rintro p (rfl | hp)
        · exact ⟨s, h, hv⟩
        · exact hrest p hp
      · intro hall
        refine ⟨?_, fun p hp => hall p (Or.inr hp)⟩
        rcases hall (k, v) (Or.inl rfl) with ⟨s2, hs2, hv2⟩
        rw [h] at hs2
        cases hs2
        exact hv2

/-- A dict schema never accepts a non-dict value. -/
theorem is_valid_dict_non_obj (v : JVal) (kvs : List (String × JF)) :
    (∀ d : JObj, v ≠ JVal.obj d) → is_valid v (JF.dict kvs) = false := by
  intro h
  cases v with
  | obj d => exact absurd rfl (h d)
  | null => rfl
  | bool b => rfl
  | int n => rfl
  | float => rfl
  | str s => rfl
  | arr l => rfl

/-- The mapping schema of the spec's example: required key `x`,
optional key `y`, both with integer values. -/
def xySchema : JF := JF.dict [("x", JF.exact .pyInt), ("?y", JF.exact .pyInt)]

/-- Claim C3: `is_valid(v, m)` for a dict schema `m` succeeds exactly
when `v` is a dict, every key of `v` is declared in `m` (with the
optional-marker `?` stripped), every required key of `m` occurs among
the keys of `v`, and every entry of `v` validates against the schema
of its key; and on the spec's example schema (required `x`, optional
`y`), `{x:1}` validates while `{y:1}` and `{x:1,y:2,z:3}` do not. -/
theorem mapping_validation_characterisation :
    (∀ (v : JVal) (kvs : List (String × JF)),
      is_valid v (JF.dict kvs) = true ↔
        ∃ d : JObj, v = JVal.obj d ∧
          (∀ k ∈ d.keys, k ∈ allKeys kvs) ∧
          (∀ k ∈ requiredKeys kvs, k ∈ d.keys) ∧
          (∀ p ∈ d.entries,
            ∃ s, lookupLast (strippedSchema kvs) p.1 = some s ∧ is_valid p.2 s = true)) ∧
    is_valid (JVal.obj (JObj.cons "x" (JVal.int 1) JObj.nil)) xySchema = true ∧
    is_valid (JVal.obj (JObj.cons "y" (JVal.int 1) JObj.nil)) xySchema = false ∧
    is_valid (JVal.obj (JObj.cons "x" (JVal.int 1) (JObj.cons "y" (JVal.int 2)
      (JObj.cons "z" (JVal.int 3) JObj.nil)))) xySchema = false := by
  refine ⟨?_, by decide, by decide, by decide⟩
  intro v kvs
  constructor
  · intro h
    cases v with
    | obj d =>
      refine ⟨d, rfl, ?_⟩
      have h2 : keysSubset d.keys (allKeys kvs) = true ∧
          keysSubset (requiredKeys kvs) d.keys = true ∧
          obj_all d (strippedSchema kvs) = true := by
        simpa [is_valid, Bool.and_eq_true, and_assoc] using h
      exact ⟨(keysSubset_iff _ _).mp h2.1, (keysSubset_iff _ _).mp h2.2.1,
        (obj_all_iff _ _).mp h2.2.2⟩
    | null => simp [is_valid] at h
    | bool b => simp [is_valid] at h
    | int n => simp [is_valid] at h
    | float => simp [is_valid] at h
    | str s => simp [is_valid] at h
    | arr l => simp [is_valid] at h
  · rintro ⟨d, rfl, h1, h2, h3⟩
    simp only [is_valid, Bool.and_eq_true]
    exact ⟨⟨(keysSubset_iff _ _).mpr h1,
      (keysSubset_iff _ _).mpr h2⟩, (obj_all_iff _ _).mpr h3⟩

/-- The union schema of the spec's example: `{int, type(None)}`. -/
def intOrNull : JF := JF.union [.pyInt, .pyNone]

/-- Claim C9: `Exact` and `Union` schema nodes check only the runtime
type of the value (two values of the same runtime type validate
identically, with no recursion into contents), and the union
`{int, null}` accepts `5` and `None` while rejecting `"5"`. -/
theorem union_exact_type_only :
    (∀ (v : JVal) (t : PyType), is_valid v (JF.exact t) = (typeOf v == t)) ∧
    (∀ (v : JVal) (ts : List PyType), is_valid v (JF.union ts) = ts.contains (typeOf v)) ∧
    (∀ (v w : JVal) (t : PyType), typeOf v = typeOf w →
      is_valid v (JF.exact t) = is_valid w (JF.exact t)) ∧
    (∀ (v w : JVal) (ts : List PyType), typeOf v = typeOf w →
      is_valid v (JF.union ts) = is_valid w (JF.union ts)) ∧
    is_valid (JVal.int 5) intOrNull = true ∧
    is_valid JVal.null intOrNull = true ∧
    is_valid (JVal.str "5") intOrNull = false := by
  refine ⟨fun v t => by simp only [is_valid], fun v ts => by simp only [is_valid],
    ?_, ?_, by decide, by decide, by decide⟩
  · intro v w t h
    simp only [is_valid, h]
  · intro v w ts h
    simp only [is_valid, h]

/-- A domain handler that returns a fixed success value, used to
instantiate the pipeline theorems on concrete inputs. -/
def constHandler : JVal → Except PyExn (POut Unit) :=
  fun _ => Except.ok (POut.out ())

/-- A domain handler that raises `ValueError` during dispatch, used to
instantiate the pipeline theorems on concrete inputs. -/
def raisingHandler : JVal → Except PyExn (POut Unit) :=
  fun _ => Except.error PyExn.valueError

/-- Claim C4: the pipeline runs parse, validate, dispatch in that
fixed order. A non-UTF-8 body yields `NOT_UNICODE` and a non-JSON
body yields `INVALID_JSON`, in both cases for every schema and every
handler (so neither the validator nor the handler can influence the
response); a decoded body failing validation yields `INVALID_FORMAT`
for every handler; a decoded body passing validation is dispatched to
the handler, whose returned value becomes the response. -/
theorem pipeline_stage_order :
    (∀ (R : Type) (jf : JF) (h : JVal → Except PyExn (POut R)),
      pipeline jf h .notUnicode = .ok (.err .NOT_UNICODE)) ∧
    (∀ (R : Type) (jf : JF) (h : JVal → Except PyExn (POut R)),
      pipeline jf h .invalidJson = .ok (.err .INVALID_JSON)) ∧
    (∀ (R : Type) (jf : JF) (h : JVal → Except PyExn (POut R)) (v : JVal),
      is_valid v jf = false →
      pipeline jf h (.decoded v) = .ok (.err .INVALID_FORMAT)) ∧
    (∀ (R : Type) (jf : JF) (h : JVal → Except PyExn (POut R)) (v : JVal)
      (r : POut R), is_valid v jf = true → h v = .ok r →
      pipeline jf h (.decoded v) = .ok r) ∧
    pipeline (JF.exact .pyInt) constHandler (.decoded (JVal.str "a"))
      = .ok (.err .INVALID_FORMAT) ∧
    pipeline (JF.exact .pyInt) constHandler (.decoded (JVal.int 3))
      = .ok (.out ()) := by
  refine ⟨fun R jf h => rfl, fun R jf h => rfl, ?_, ?_, rfl, rfl⟩
  · intro R jf h v hv
    simp [pipeline, json_parse, json_validator, hv]
  · intro R jf h v r hv hr
    simp [pipeline, json_parse, json_validator, hv, hr]

/-- Claim C10: because the `try` of `json_parser` encloses the
invocation of the decorated function, a `ValueError` raised after a
successful parse — by the validation stage or by the domain handler —
is caught by the `except ValueError` clause and reported to the
client as `INVALID_JSON`, the malformed-JSON parse failure. -/
theorem valueerror_reported_as_invalid_json :
    (∀ (R : Type) (inner : JVal → Except PyExn (POut R)) (v : JVal),
      inner v = .error .valueError →
      json_parse inner (.decoded v) = .ok (.err .INVALID_JSON)) ∧
    (∀ (R : Type) (jf : JF) (h : JVal → Except PyExn (POut R)) (v : JVal),
      is_valid v jf = true → h v = .error .valueError →
      pipeline jf h (.decoded v) = .ok (.err .INVALID_JSON)) ∧
    pipeline (JF.exact .pyInt) raisingHandler (.decoded (JVal.int 7))
      = .ok (.err .INVALID_JSON) := by
  refine ⟨?_, ?_, rfl⟩
  · intro R inner v hv
    simp [json_parse, hv]
  · intro R jf h v hv hr
    simp [pipeline, json_parse, json_validator, hv, hr]

/-- Claim C5 (refuting theorem): whenever opening and JSON-decoding
the configuration file succeeds, `GridSaveHandler.post` raises
`AttributeError` (from the `tornado.escope` typo on source line 299)
instead of returning a response value; in particular it never
produces `{"state": "success"}` or any error-taxonomy value. -/
theorem gridsave_post_raises :
    (∀ conf : JVal, GridSaveHandler_post (.ok conf) = .error .attributeError) ∧
    GridSaveHandler_post (.ok (JVal.obj JObj.nil)) = .error .attributeError ∧
    (∀ (conf : JVal) (r : POut JVal), GridSaveHandler_post (.ok conf) ≠ .ok r) := by
  refine ⟨fun conf => rfl, rfl, ?_⟩
  intro conf r h
  cases h

/-- Claim C6: the auto-add loop registers each discovered bridge,
catching and skipping the already-registered failure: when the run
discovers `[A, B]` with `A` already registered and `B` not, the
backend ends with `B` appended and everything else unchanged, and the
loop finishes without an error; the caller of the POST had already
received the success response when the run started. -/
theorem auto_add_skips_already_registered :
    (∀ (g : List String) (A B : String), A ∈ g → B ∉ g →
      autoAddLoop g [A, B] = .ok (g ++ [B])) ∧
    autoAddLoop ["A"] ["A", "B"] = .ok ["A", "B"] ∧
    (doAction initConfig (.post (myfuncProg true ["A", "B"] 100))).2 = some .accepted := by
  refine ⟨?_, rfl, rfl⟩
  intro g A B hA hB
  simp [autoAddLoop, add_bridge, hA, hB]

/-- Unfolding of `runTrace` over one scheduled action. -/
theorem runTrace_cons (c : Config) (a : Act) (rest : List Act) :
    runTrace c (a :: rest) =
      ((runTrace (doAction c a).1 rest).1,
        (doAction c a).2.toList ++ (runTrace (doAction c a).1 rest).2) := rfl

/-- Claim C8: GET /bridges/search before any discovery run returns the
initial snapshot, `finished = -1` (the never-run marker) with no
bridges; while the event is set it returns `CURRENTLY_SEARCHING`;
otherwise it returns exactly the stored `last_search` and
`new_bridges` values. -/
theorem poll_status_behaviour :
    (runTrace initConfig [Act.get]).2 = [Resp.snapshot (-1) []] ∧
    (∀ c : Config, c.st.event = true →
      (doAction c .get).2 = some .currentlySearching) ∧
    (∀ c : Config, c.st.event = false →
      (doAction c .get).2 = some (.snapshot c.st.last_search c.st.new_bridges)) := by
  refine ⟨rfl, ?_, ?_⟩
  · intro c h
    simp [doAction, h]
  · intro c h
    simp [doAction, h]

/-- Claim C7: once the event is set and the background thread has died
of an uncaught exception (so no live thread remains), no further
schedule of requests changes anything: the event stays set, and every
subsequent POST or GET to /bridges/search answers
`CURRENTLY_SEARCHING` — the Searching-to-Idle transition never
occurs. The closed conjunct reaches such a configuration concretely:
the run raises right after `event.set()`, and both a later POST and a
later GET are rejected. -/
theorem stuck_searching_forever :
    (∀ (acts : List Act) (c : Config), c.st.event = true → c.threads = [] →
      (runTrace c acts).1.st.event = true ∧ (runTrace c acts).1.threads = [] ∧
      ∀ r ∈ (runTrace c acts).2, r = Resp.currentlySearching) ∧
    (runTrace initConfig [Act.post [TStep.setEvent, TStep.raiseExn], Act.thread 0,
      Act.thread 0, Act.post (myfuncProg false ["A"] 100), Act.get]).2
      = [Resp.accepted, Resp.currentlySearching, Resp.currentlySearching] := by
  refine ⟨?_, rfl⟩
  intro acts
  induction acts with
  | nil => exact fun c h1 h2 => ⟨h1, h2, by simp [runTrace]⟩
  | cons a rest ih =>
    intro c h1 h2
    have step : ∃ o, doAction c a = (c, o) ∧
        (∀ r, o = some r → r = Resp.currentlySearching) := by
      cases a with
      | post prog =>
        exact ⟨some Resp.currentlySearching, by simp [doAction, h1],
          fun r hr => by cases hr; rfl⟩
      | get =>
        exact ⟨some Resp.currentlySearching, by simp [doAction, h1],
          fun r hr => by cases hr; rfl⟩
      | thread i =>
        exact ⟨none, by simp [doAction, h2], fun r hr => by cases hr⟩
    rcases step with ⟨o, ho, hro⟩
    rcases ih c h1 h2 with ⟨e1, e2, e3⟩
    rw [runTrace_cons, ho]
    refine ⟨e1, e2, ?_⟩
    intro r hr
    rcases List.mem_append.mp hr with hl | hrr
    · cases o with
      | none => cases hl
      | some x =>
        rcases List.mem_singleton.mp hl with rfl
        exact hro r rfl
    · exact e3 r hrr

/-- Claim C1 (refuting theorem): the source checks `event.is_set()` in
the request handler but performs `event.set()` inside the spawned
thread, so two POST /bridges/search requests handled before the first
spawned thread runs are both accepted: both responses are success,
two background discovery threads exist afterwards, and after each
thread's first statement both runs are simultaneously past
`event.set()` and still before their discovery — two Searching
periods open at once. -/
theorem double_discovery_start :
    (runTrace initConfig [Act.post (myfuncProg false ["A"] 100),
      Act.post (myfuncProg false ["B"] 200)]).2 = [Resp.accepted, Resp.accepted] ∧
    (runTrace initConfig [Act.post (myfuncProg false ["A"] 100),
      Act.post (myfuncProg false ["B"] 200)]).1.threads.length = 2 ∧
    (runTrace initConfig [Act.post (myfuncProg false ["A"] 100),
      Act.post (myfuncProg false ["B"] 200), Act.thread 0, Act.thread 1]).1
      = ⟨⟨true, [], -1, []⟩,
         [[TStep.discover ["A"], TStep.stamp 100, TStep.clearEvent],
          [TStep.discover ["B"], TStep.stamp 200, TStep.clearEvent]]⟩ :=
  ⟨rfl, rfl, rfl⟩

/-- Claim C2 (refuting theorem): with two overlapping runs (reachable
because the event is set inside the thread), a GET can observe a
mixed snapshot. Schedule: both POSTs are accepted; both threads set
the event; run 1 stores its bridges `["A"]` and timestamp `100` and
clears the event; run 2 then stores its bridges `["B"]`; a GET now
finds the event clear and returns `finished = 100` with bridges
`["B"]` — the timestamp of run 1 paired with the bridges of run 2,
which is none of the three complete snapshots (the initial one, run
1's, run 2's). -/
theorem mixed_snapshot_observed :
    (runTrace initConfig [Act.post (myfuncProg false ["A"] 100),
      Act.post (myfuncProg false ["B"] 200), Act.thread 0, Act.thread 1,
      Act.thread 0, Act.thread 0, Act.thread 0, Act.thread 0, Act.get]).2
      = [Resp.accepted, Resp.accepted, Resp.snapshot 100 ["B"]] ∧
    Resp.snapshot 100 ["B"] ≠ Resp.snapshot (-1) [] ∧
    Resp.snapshot 100 ["B"] ≠ Resp.snapshot 100 ["A"] ∧
    Resp.snapshot 100 ["B"] ≠ Resp.snapshot 200 ["B"] := by
  refine ⟨rfl, by decide, by decide, by decide⟩
